import Mathlib

/-!
Verification of the silence-manager reconciliation engine.

Shallow embedding of the Go sources:
* `pkg/ticket/types.go` — ticket statuses and the three classification
  predicates of the Jira adapter (`IsResolved` / `IsClosed` / `IsOpen`).
* `pkg/alertmanager/prometheus.go` — the coupling codec on the
  alertmanager side (`convertToPromSilence` embeds a ticket reference in a
  silence comment, `extractTicketRef` recovers it) together with the Jira
  side of the codec (`convertToJiraIssue` / `extractSilenceRef`).
* `pkg/sync/sync.go` — the reconciliation engine: `Sync`,
  `processSilence`, `checkRefiredAlerts`, `createMatchersFromAlert`.

Modelling conventions:
* Go `time.Time` and `time.Duration` are modelled as `Int` (nanoseconds);
  the engine reads the clock through a single `now` parameter.
* Go strings are `String`; the coupling codec and the Jira status mapper,
  which slice and search strings character by character, are modelled over
  `List Char` (the marker texts are ASCII, so characters model bytes).
* The two backends (alertmanager, ticket system) and the metrics pusher
  are modelled by an environment `Env` of response functions; each engine
  function additionally returns the list of backend calls it issued
  (`List Op`, the trace) so that "exactly one delete call" style
  properties are statable.
-/

namespace SilMgr

/-! ## Ticket statuses (pkg/ticket/types.go) -/

/-- Go: `StatusOpen TicketStatus = "open"`. -/
def StatusOpen : String := "open"

/-- Go: `StatusInProgress TicketStatus = "in_progress"`. -/
def StatusInProgress : String := "in_progress"

/-- Go: `StatusResolved TicketStatus = "resolved"`. -/
def StatusResolved : String := "resolved"

/-- Go: `StatusClosed TicketStatus = "closed"`. -/
def StatusClosed : String := "closed"

/-- Go: `StatusReopened TicketStatus = "reopened"`. -/
def StatusReopened : String := "reopened"

/-- Go struct `ticket.Ticket` (pkg/ticket/types.go); times are `Int`. -/
structure Ticket where
  id : String := ""
  key : String := ""
  summary : String := ""
  description : String := ""
  status : String := ""
  createdAt : Int := 0
  updatedAt : Int := 0
  silenceRef : String := ""
  labels : List String := []
  assignee : String := ""
deriving DecidableEq

/-- Go: `func (j *JiraTicketSystem) IsResolved(ticket *Ticket) bool`. -/
def IsResolved (t : Ticket) : Bool :=
  t.status == StatusResolved

/-- Go: `func (j *JiraTicketSystem) IsClosed(ticket *Ticket) bool`. -/
def IsClosed (t : Ticket) : Bool :=
  t.status == StatusClosed || t.status == StatusResolved

/-- Go: `func (j *JiraTicketSystem) IsOpen(ticket *Ticket) bool`. -/
def IsOpen (t : Ticket) : Bool :=
  t.status == StatusOpen || t.status == StatusInProgress

/-! ## Alertmanager data model (pkg/alertmanager/types.go) -/

/-- Go struct `alertmanager.Matcher`. -/
structure Matcher where
  name : String
  value : String
  isRegex : Bool
  isEqual : Bool
deriving DecidableEq

/-- Go struct `alertmanager.Silence`; times are `Int`. -/
structure Silence where
  id : String := ""
  createdBy : String := ""
  comment : String := ""
  startsAt : Int := 0
  endsAt : Int := 0
  matchers : List Matcher := []
  ticketRef : String := ""
deriving DecidableEq

/-- Go struct `alertmanager.Alert`; the Go label/annotation maps are
modelled as association lists. -/
structure Alert where
  labels : List (String × String) := []
  annotations : List (String × String) := []
  startsAt : Int := 0
  endsAt : Int := 0
  status : String := ""
deriving DecidableEq

/-- Lookup in a Go map modelled as an association list:
`value, ok := m[k]` becomes `lookupLabel m k = some value / none`. -/
def lookupLabel (m : List (String × String)) (k : String) : Option String :=
  match m.find? (fun p => p.fst == k) with
  | some p => some p.snd
  | none => none

/-! ## Coupling codec (pkg/alertmanager/prometheus.go, jira.go)

The codec works on Go strings byte by byte; it is modelled over
`List Char`. -/

/-- Go `takeUntilNewline` behaviour inside `extractTicketRef` /
`extractSilenceRef`: `for i, c := range rest if c == newline return rest up
to i; return rest`. -/
def takeUntilNL : List Char → List Char
  | [] => []
  | c :: cs => if c = '\n' then [] else c :: takeUntilNL cs

/-- Marker used by the Prometheus side of the codec:
`fmt.Sprintf("# %s: ", p.annotationPrefix)`. -/
def promMarker (pfx : List Char) : List Char :=
  '#' :: ' ' :: (pfx ++ [':', ' '])

/-- Marker used by the Jira side of the codec:
`fmt.Sprintf("%s: ", j.annotationPrefix)`. -/
def jiraMarker (pfx : List Char) : List Char :=
  pfx ++ [':', ' ']

/-- Common extraction logic of Go `extractTicketRef` (prometheus.go) and
`extractSilenceRef` (jira.go): if the text is shorter than the marker
return empty; if the text starts with the exact marker return the rest up
to the first newline; otherwise return empty. -/
def extractRefAux (marker text : List Char) : List Char :=
  if text.length < marker.length then []
  else if text.take marker.length = marker then
    takeUntilNL (text.drop marker.length)
  else []

/-- Go `func (p *PrometheusAlertManager) extractTicketRef(comment string)
string` with the marker `"# <pfx>: "`. -/
def extractTicketRef (pfx comment : List Char) : List Char :=
  extractRefAux (promMarker pfx) comment

/-- Go `func (j *JiraTicketSystem) extractSilenceRef(description string)
string` with the marker `"<pfx>: "`. -/
def extractSilenceRef (pfx description : List Char) : List Char :=
  extractRefAux (jiraMarker pfx) description

/-- Embedding half on the Prometheus side, from `convertToPromSilence`:
`if s.TicketRef != "" { comment = fmt.Sprintf("# %s: %s\n%s", prefix,
s.TicketRef, comment) }`. -/
def embedTicketRef (pfx ref comment : List Char) : List Char :=
  if ref = [] then comment
  else promMarker pfx ++ (ref ++ '\n' :: comment)

/-- Embedding half on the Jira side, from `convertToJiraIssue`:
`if ticket.SilenceRef != "" { description = fmt.Sprintf("%s: %s\n\n%s",
prefix, ticket.SilenceRef, description) }`. -/
def embedSilenceRef (pfx ref description : List Char) : List Char :=
  if ref = [] then description
  else jiraMarker pfx ++ (ref ++ '\n' :: '\n' :: description)

/-- Boolean test that `needle` occurs at the front of `hay`
(Go `strings.HasPrefix`). -/
def atFront : List Char → List Char → Bool
  | [], _ => true
  | _ :: _, [] => false
  | c :: cs, d :: ds => c == d && atFront cs ds

/-- Boolean test that `needle` occurs contiguously anywhere inside `hay`
(Go `strings.Contains`). -/
def containsSeq (needle : List Char) : List Char → Bool
  | [] => atFront needle []
  | d :: ds => atFront needle (d :: ds) || containsSeq needle ds

/-! ### Codec lemmas -/

theorem takeUntilNL_append (ref rest : List Char) (h : '\n' ∉ ref) :
    takeUntilNL (ref ++ '\n' :: rest) = ref := by
  induction ref with
  | nil => simp [takeUntilNL]
  | cons c cs ih =>
    simp only [List.mem_cons, not_or] at h
    have hc : ¬ c = '\n' := fun hh => h.1 hh.symm
    simp only [List.cons_append, takeUntilNL, if_neg hc]
    exact congrArg (c :: ·) (ih h.2)

theorem extractRefAux_round (marker ref rest : List Char)
    (hn : '\n' ∉ ref) :
    extractRefAux marker (marker ++ (ref ++ '\n' :: rest)) = ref := by
  unfold extractRefAux
  rw [if_neg, if_pos (List.take_left marker _)]
  · rw [List.drop_left marker _, takeUntilNL_append ref rest hn]
  · simp only [List.length_append, List.length_cons]
    omega

theorem extractRefAux_no_marker (marker text : List Char)
    (h : text.take marker.length ≠ marker) :
    extractRefAux marker text = [] := by
  unfold extractRefAux
  by_cases hlen : text.length < marker.length
  · rw [if_pos hlen]
  · rw [if_neg hlen, if_neg h]

/-! ## Jira status mapper (pkg/ticket/jira.go, mapJiraStatus) -/

/-- Character-level model of Go `strings.ToLower(status)`. -/
def lowerChars (status : String) : List Char :=
  status.data.map Char.toLower

/-- Go `func (j *JiraTicketSystem) mapJiraStatus(status string)
TicketStatus`: lowercase the name, then test substring containment in the
source's order, defaulting to `StatusOpen`. -/
def mapJiraStatus (status : String) : String :=
  if containsSeq (String.data ("open")) (lowerChars status)
      || containsSeq (String.data ("to do")) (lowerChars status) then
    StatusOpen
  else if containsSeq (String.data ("in progress")) (lowerChars status)
      || containsSeq (String.data ("in review")) (lowerChars status) then
    StatusInProgress
  else if containsSeq (String.data ("resolved")) (lowerChars status)
      || containsSeq (String.data ("done")) (lowerChars status) then
    StatusResolved
  else if containsSeq (String.data ("closed")) (lowerChars status) then
    StatusClosed
  else if containsSeq (String.data ("reopen")) (lowerChars status) then
    StatusReopened
  else
    StatusOpen

/-! ## Reconciliation engine (pkg/sync/sync.go) -/

/-- Go struct `sync.SyncConfig`; durations are `Int` nanoseconds. -/
structure SyncConfig where
  expiryThreshold : Int
  extensionDuration : Int
  defaultSilenceDuration : Int
  checkAlerts : Bool

/-- Go struct `sync.SyncResult`; the error values are modelled by their
message strings. -/
structure SyncResult where
  silencesExtended : Nat := 0
  silencesDeleted : Nat := 0
  silencesCreated : Nat := 0
  ticketsReopened : Nat := 0
  errors : List String := []
deriving DecidableEq

/-- Go `result := &SyncResult{Errors: make([]error, 0)}`. -/
def SyncResult.empty : SyncResult :=
  { silencesExtended := 0, silencesDeleted := 0, silencesCreated := 0,
    ticketsReopened := 0, errors := [] }

/-- One backend call issued by the engine during a run.  The trace of
these calls is returned beside the `SyncResult` so that counting
statements ("exactly one delete call") can be proved. -/
inductive Op where
  | getTicket (key : String)
  | getSilence (id : String)
  | deleteSilence (id : String)
  | extendSilence (id : String) (newEnd : Int)
  | createSilence (s : Silence)
  | reopenTicket (key : String) (comment : String)
  | addComment (key : String) (comment : String)
deriving DecidableEq

/-- Responses of the two backends and the metrics pusher, one field per
interface method the engine calls (`alertmanager.AlertManager`,
`ticket.TicketSystem`, `metrics.Publisher.Push`).  Fallible Go calls
return `Except String`. -/
structure Env where
  listSilences : Except String (List Silence)
  getSilence : String → Except String Silence
  deleteRes : String → Except String Unit
  extendRes : String → Int → Except String Unit
  createRes : Silence → Except String String
  getAlerts : Except String (List Alert)
  getTicket : String → Except String Ticket
  reopenRes : String → String → Except String Unit
  commentRes : String → String → Except String Unit
  pushRes : Except String Unit

/-- Comment text of the delete branch of `processSilence`. -/
def deletedMsg (id : String) : String :=
  "Silence " ++ id ++ " has been automatically deleted because the ticket is resolved."

/-- Comment text of the about-to-expire extension branch of
`processSilence` (RFC3339 time formatting abstracted to `toString`). -/
def extendedMsg (id : String) (newEnd : Int) : String :=
  "Silence " ++ id ++ " has been automatically extended until " ++ toString newEnd ++ "."

/-- Comment text of the already-expired extension branch of
`processSilence`. -/
def expiredExtendedMsg (id : String) (newEnd : Int) : String :=
  "Silence " ++ id ++ " was expired and has been automatically extended until " ++ toString newEnd ++ "."

/-- Go `func (s *Synchronizer) processSilence(silence *Silence, result
*SyncResult) error` (sync.go lines 112-168).  Returns the updated result,
the trace of backend calls, and the returned error if any.  A failed
`AddComment` after a successful delete/extend is only logged in Go, so its
response is never consulted here.  The Go locals `timeUntilExpiry =
silence.EndsAt - now` and `newEndTime = now + extensionDuration` are
inlined. -/
def processSilence (env : Env) (cfg : SyncConfig) (now : Int)
    (silence : Silence) (result : SyncResult) :
    SyncResult × List Op × Option String :=
  match env.getTicket silence.ticketRef with
  | .error e =>
      (result, [Op.getTicket silence.ticketRef],
       some ("failed to get ticket " ++ silence.ticketRef ++ ": " ++ e))
  | .ok tkt =>
      if IsResolved tkt then
        match env.deleteRes silence.id with
        | .error e =>
            (result, [Op.getTicket silence.ticketRef, Op.deleteSilence silence.id],
             some ("failed to delete silence: " ++ e))
        | .ok _ =>
            ({ result with silencesDeleted := result.silencesDeleted + 1 },
             [Op.getTicket silence.ticketRef, Op.deleteSilence silence.id,
              Op.addComment tkt.key (deletedMsg silence.id)],
             none)
      else if IsOpen tkt then
        if silence.endsAt - now < cfg.expiryThreshold ∧ 0 < silence.endsAt - now then
          match env.extendRes silence.id (now + cfg.extensionDuration) with
          | .error e =>
              (result,
               [Op.getTicket silence.ticketRef,
                Op.extendSilence silence.id (now + cfg.extensionDuration)],
               some ("failed to extend silence: " ++ e))
          | .ok _ =>
              ({ result with silencesExtended := result.silencesExtended + 1 },
               [Op.getTicket silence.ticketRef,
                Op.extendSilence silence.id (now + cfg.extensionDuration),
                Op.addComment tkt.key (extendedMsg silence.id (now + cfg.extensionDuration))],
               none)
        else if silence.endsAt - now ≤ 0 then
          match env.extendRes silence.id (now + cfg.extensionDuration) with
          | .error e =>
              (result,
               [Op.getTicket silence.ticketRef,
                Op.extendSilence silence.id (now + cfg.extensionDuration)],
               some ("failed to extend expired silence: " ++ e))
          | .ok _ =>
              ({ result with silencesExtended := result.silencesExtended + 1 },
               [Op.getTicket silence.ticketRef,
                Op.extendSilence silence.id (now + cfg.extensionDuration),
                Op.addComment tkt.key (expiredExtendedMsg silence.id (now + cfg.extensionDuration))],
               none)
        else
          (result, [Op.getTicket silence.ticketRef], none)
      else
        (result, [Op.getTicket silence.ticketRef], none)

/-- The labels copied into a recreated silence, Go `importantLabels :=
[]string{"alertname", "job", "instance", "severity"}`. -/
def importantLabels : List String :=
  [("alertname" : String), ("job" : String), ("instance" : String), ("severity" : String)]

/-- Loop of Go `createMatchersFromAlert` over the allow-list labels:
`if value, exists := alert.Labels[label]; exists { matchers =
append(matchers, Matcher{label, value, false, true}) }`. -/
def matchersLoop (alert : Alert) : List String → List Matcher → List Matcher
  | [], acc => acc
  | label :: rest, acc =>
    match lookupLabel alert.labels label with
    | some value =>
        matchersLoop alert rest
          (acc ++ [{ name := label, value := value, isRegex := false, isEqual := true }])
    | none => matchersLoop alert rest acc

/-- Go `func (s *Synchronizer) createMatchersFromAlert(alert *Alert)
[]Matcher` (sync.go lines 260-277). -/
def createMatchersFromAlert (alert : Alert) : List Matcher :=
  matchersLoop alert importantLabels []

/-- Matcher list as the specification words it: an equality, non-regex
matcher for each allow-listed label present on the alert, absent labels
omitted.  Stated from the spec, to be compared with
`createMatchersFromAlert`. -/
def specMatchersFromAlert (alert : Alert) : List Matcher :=
  importantLabels.filterMap fun label =>
    (lookupLabel alert.labels label).map fun value =>
      { name := label, value := value, isRegex := false, isEqual := true }

/-- Reopen message of `checkRefiredAlerts`; the Go text interpolates the
alert's label map with `%v`, whose exact rendering is abstracted here to
`toString` of the association list. -/
def reopenMsg (alert : Alert) : String :=
  "Alert has refired. Automatically reopening ticket and creating new silence.\n\nAlert: "
    ++ toString alert.labels

/-- The replacement silence built by `checkRefiredAlerts` for a refired
alert of ticket `tkt` (sync.go lines 229-236). -/
def refiredSilence (cfg : SyncConfig) (now : Int) (alert : Alert) (tkt : Ticket) : Silence :=
  { id := "", createdBy := "silence-manager",
    comment := "Automatically recreated for refired alert",
    startsAt := now, endsAt := now + cfg.defaultSilenceDuration,
    matchers := createMatchersFromAlert alert,
    ticketRef := tkt.key }

/-- Loop body of `checkRefiredAlerts` for one alert (sync.go lines
190-254), threading the result and the call trace. -/
def processAlert (env : Env) (cfg : SyncConfig) (now : Int)
    (st : SyncResult × List Op) (alert : Alert) : SyncResult × List Op :=
  match lookupLabel alert.labels ("ticket") with
  | none => st
  | some ticketRef =>
    let ops := st.snd ++ [Op.getTicket ticketRef]
    match env.getTicket ticketRef with
    | .error _ => (st.fst, ops)
    | .ok tkt =>
      if IsClosed tkt then
        let probe :
            Bool × List Op :=
          match lookupLabel alert.labels ("silence_id") with
          | none => (false, ops)
          | some sid =>
            match env.getSilence sid with
            | .ok sl => (decide (now < sl.endsAt), ops ++ [Op.getSilence sid])
            | .error _ => (false, ops ++ [Op.getSilence sid])
        if probe.fst then (st.fst, probe.snd)
        else
          let ops := probe.snd ++ [Op.reopenTicket tkt.key (reopenMsg alert)]
          match env.reopenRes tkt.key (reopenMsg alert) with
          | .error e =>
              ({ st.fst with errors := st.fst.errors ++ ["reopen ticket " ++ tkt.key ++ ": " ++ e] },
               ops)
          | .ok _ =>
            let r1 := { st.fst with ticketsReopened := st.fst.ticketsReopened + 1 }
            let ns := refiredSilence cfg now alert tkt
            let ops := ops ++ [Op.createSilence ns]
            match env.createRes ns with
            | .error e =>
                ({ r1 with errors := r1.errors ++ ["create silence for " ++ tkt.key ++ ": " ++ e] },
                 ops)
            | .ok newID =>
                ({ r1 with silencesCreated := r1.silencesCreated + 1 },
                 ops ++ [Op.addComment tkt.key ("New silence created: " ++ newID)])
      else (st.fst, ops)

/-- Go `func (s *Synchronizer) checkRefiredAlerts(result *SyncResult)
error` (sync.go lines 171-257). -/
def checkRefiredAlerts (env : Env) (cfg : SyncConfig) (now : Int)
    (result : SyncResult) : SyncResult × List Op × Option String :=
  match env.getAlerts with
  | .error e => (result, [], some ("failed to get alerts: " ++ e))
  | .ok alerts =>
    let p := alerts.foldl (processAlert env cfg now) (result, [])
    (p.fst, p.snd, none)

/-- Loop body of `Sync` for one silence (sync.go lines 75-89): skip
silences without a ticket reference, otherwise run `processSilence` and
append any returned error wrapped with the silence id. -/
def syncStep (env : Env) (cfg : SyncConfig) (now : Int)
    (acc : SyncResult × List Op) (silence : Silence) : SyncResult × List Op :=
  if silence.ticketRef == "" then acc
  else
    match processSilence env cfg now silence acc.fst with
    | (r, ops, some e) =>
        ({ r with errors := r.errors ++ ["silence " ++ silence.id ++ ": " ++ e] },
         acc.snd ++ ops)
    | (r, ops, none) => (r, acc.snd ++ ops)

/-- Body of `Sync` after a successful `ListSilences`: the per-silence
loop, the optional refired-alert check, and the metrics push (sync.go
lines 71-108). -/
def syncBody (env : Env) (cfg : SyncConfig) (now : Int)
    (silences : List Silence) : SyncResult × List Op :=
  let p := silences.foldl (syncStep env cfg now) (SyncResult.empty, [])
  let q :=
    if cfg.checkAlerts then
      match checkRefiredAlerts env cfg now p.fst with
      | (r, ops, some e) =>
          ({ r with errors := r.errors ++ ["check refired alerts: " ++ e] }, p.snd ++ ops)
      | (r, ops, none) => (r, p.snd ++ ops)
    else p
  match env.pushRes with
  | .error e => ({ q.fst with errors := q.fst.errors ++ ["push metrics: " ++ e] }, q.snd)
  | .ok _ => q

/-- Go `func (s *Synchronizer) Sync() (*SyncResult, error)` (sync.go
lines 58-109).  Returns the result, the backend-call trace, and the
top-level error. -/
def Sync (env : Env) (cfg : SyncConfig) (now : Int) :
    SyncResult × List Op × Option String :=
  match env.listSilences with
  | .error e => (SyncResult.empty, [], some ("failed to list silences: " ++ e))
  | .ok silences =>
    let q := syncBody env cfg now silences
    (q.fst, q.snd, none)

/-! ## Helper lemmas -/

/-- A ticket classified open is never classified resolved: its status is
one of the two open statuses, neither of which is the resolved status. -/
theorem isOpen_not_resolved (t : Ticket) (h : IsOpen t = true) :
    IsResolved t = false := by
  unfold IsOpen at h
  unfold IsResolved
  rcases (Bool.or_eq_true _ _).mp h with h1 | h1
  · rw [(beq_iff_eq).mp h1]; decide
  · rw [(beq_iff_eq).mp h1]; decide

/-- Folding a list with a step function that fixes every element of the
list leaves the accumulator unchanged. -/
theorem foldl_fixed {α β : Type} (f : β → α → β) (l : List α) :
    ∀ init : β, (∀ b : β, ∀ a ∈ l, f b a = b) → l.foldl f init = init := by
  induction l with
  | nil => intro init _; rfl
  | cons a t ih =>
    intro init h
    rw [List.foldl_cons, h init a (List.mem_cons_self a t)]
    exact ih init fun b a' ha' => h b a' (List.mem_cons_of_mem a ha')

/-! ## Concrete fixtures used by the witnesses -/

/-- Backend responses where every call succeeds trivially. -/
def okEnv : Env :=
  { listSilences := Except.ok []
    getSilence := fun _ => Except.error ("silence not found")
    deleteRes := fun _ => Except.ok ()
    extendRes := fun _ _ => Except.ok ()
    createRes := fun _ => Except.ok ("s-new")
    getAlerts := Except.ok []
    getTicket := fun _ => Except.error ("ticket not found")
    reopenRes := fun _ _ => Except.ok ()
    commentRes := fun _ _ => Except.ok ()
    pushRes := Except.ok () }

/-- A small concrete configuration. -/
def cfgW : SyncConfig :=
  { expiryThreshold := 100, extensionDuration := 1000,
    defaultSilenceDuration := 2000, checkAlerts := true }

/-- A resolved ticket fixture. -/
def tktResolved : Ticket :=
  { key := ("T1"), status := StatusResolved }

/-- An open ticket fixture. -/
def tktOpenW : Ticket :=
  { key := ("T1"), status := StatusOpen }

/-- A closed ticket fixture. -/
def tktClosedW : Ticket :=
  { key := ("T1"), status := StatusClosed }

/-- A silence fixture coupled to ticket T1. -/
def silW : Silence :=
  { id := ("sil-1"), endsAt := 50, ticketRef := ("T1") }

/-- A silence fixture without a ticket reference. -/
def silNoRef : Silence :=
  { id := ("sil-2"), endsAt := 50, ticketRef := ("") }

/-! ## C1 -/

/-- C1: for a silence whose ticket fetch succeeds and whose ticket
classifies as resolved, `processSilence` issues exactly one delete call
for that silence, appends an explanatory comment to the ticket, increments
`SilencesDeleted` by exactly one, and reports no error. -/
theorem C1_resolved_deletes (env : Env) (cfg : SyncConfig) (now : Int)
    (silence : Silence) (result : SyncResult) (tkt : Ticket)
    (hT : env.getTicket silence.ticketRef = Except.ok tkt)
    (hRes : IsResolved tkt = true)
    (hDel : env.deleteRes silence.id = Except.ok ()) :
    processSilence env cfg now silence result =
      ({ result with silencesDeleted := result.silencesDeleted + 1 },
       [Op.getTicket silence.ticketRef, Op.deleteSilence silence.id,
        Op.addComment tkt.key (deletedMsg silence.id)], none) := by
  unfold processSilence
  rw [hT]
  simp [hRes, hDel]

/-- Witness for C1 at a concrete environment and silence. -/
theorem C1_witness :
    processSilence { okEnv with getTicket := fun _ => Except.ok tktResolved }
        cfgW 0 silW SyncResult.empty =
      ({ SyncResult.empty with silencesDeleted := SyncResult.empty.silencesDeleted + 1 },
       [Op.getTicket silW.ticketRef, Op.deleteSilence silW.id,
        Op.addComment tktResolved.key (deletedMsg silW.id)], none) :=
  C1_resolved_deletes _ _ _ _ _ _ rfl (by decide) rfl

/-! ## C2 -/

/-- C2: for a silence whose ticket classifies as open, with a positive
expiry threshold and a cooperating backend: if `0 < EndsAt - now <
expiryThreshold` or `EndsAt - now <= 0`, `processSilence` issues exactly
one extend call to `now + extensionDuration` and increments
`SilencesExtended` by exactly one; if `EndsAt - now >= expiryThreshold`,
no write occurs for that silence. -/
theorem C2_open_extends (env : Env) (cfg : SyncConfig) (now : Int)
    (silence : Silence) (result : SyncResult) (tkt : Ticket)
    (hth : 0 < cfg.expiryThreshold)
    (hT : env.getTicket silence.ticketRef = Except.ok tkt)
    (hOpen : IsOpen tkt = true)
    (hExt : env.extendRes silence.id (now + cfg.extensionDuration) = Except.ok ()) :
    (silence.endsAt - now < cfg.expiryThreshold → 0 < silence.endsAt - now →
      processSilence env cfg now silence result =
        ({ result with silencesExtended := result.silencesExtended + 1 },
         [Op.getTicket silence.ticketRef,
          Op.extendSilence silence.id (now + cfg.extensionDuration),
          Op.addComment tkt.key (extendedMsg silence.id (now + cfg.extensionDuration))],
         none)) ∧
    (silence.endsAt - now ≤ 0 →
      processSilence env cfg now silence result =
        ({ result with silencesExtended := result.silencesExtended + 1 },
         [Op.getTicket silence.ticketRef,
          Op.extendSilence silence.id (now + cfg.extensionDuration),
          Op.addComment tkt.key (expiredExtendedMsg silence.id (now + cfg.extensionDuration))],
         none)) ∧
    (cfg.expiryThreshold ≤ silence.endsAt - now →
      processSilence env cfg now silence result =
        (result, [Op.getTicket silence.ticketRef], none)) := by
  have hnr : IsResolved tkt = false := isOpen_not_resolved tkt hOpen
  refine ⟨?_, ?_, ?_⟩
  · intro h1 h2
    unfold processSilence
    rw [hT]
    simp only [hnr, Bool.false_eq_true, if_false, hOpen, if_true]
    rw [if_pos ⟨h1, h2⟩, hExt]
  · intro h1
    have hc1 : ¬(silence.endsAt - now < cfg.expiryThreshold ∧ 0 < silence.endsAt - now) := by
      intro hc; omega
    unfold processSilence
    rw [hT]
    simp only [hnr, Bool.false_eq_true, if_false, hOpen, if_true]
    rw [if_neg hc1, if_pos h1, hExt]
  · intro h1
    have hc1 : ¬(silence.endsAt - now < cfg.expiryThreshold ∧ 0 < silence.endsAt - now) := by
      intro hc; omega
    have hc2 : ¬(silence.endsAt - now ≤ 0) := by omega
    unfold processSilence
    rw [hT]
    simp only [hnr, Bool.false_eq_true, if_false, hOpen, if_true]
    rw [if_neg hc1, if_neg hc2]

/-- Witness for C2 at a concrete environment and an expired silence. -/
theorem C2_witness :
    processSilence { okEnv with getTicket := fun _ => Except.ok tktOpenW }
        cfgW 200 silW SyncResult.empty =
      ({ SyncResult.empty with silencesExtended := SyncResult.empty.silencesExtended + 1 },
       [Op.getTicket silW.ticketRef,
        Op.extendSilence silW.id ((200 : Int) + cfgW.extensionDuration),
        Op.addComment tktOpenW.key (expiredExtendedMsg silW.id ((200 : Int) + cfgW.extensionDuration))],
       none) :=
  (C2_open_extends _ _ _ _ _ _ (by decide) rfl (by decide) rfl).2.1 (by decide)

/-! ## C3 -/

/-- C3: a silence with an empty ticket reference is never touched: the
per-silence loop step leaves the result and the call trace unchanged (no
ticket fetch, no write, no error), and a run over only such silences
returns the empty result with an empty trace. -/
theorem C3_uncoupled_untouched (env : Env) (cfg : SyncConfig) (now : Int) :
    (∀ (acc : SyncResult × List Op) (silence : Silence), silence.ticketRef = "" →
      syncStep env cfg now acc silence = acc) ∧
    (∀ silences, env.listSilences = Except.ok silences →
      (∀ s ∈ silences, s.ticketRef = "") → cfg.checkAlerts = false →
      env.pushRes = Except.ok () →
      Sync env cfg now = (SyncResult.empty, [], none)) := by
  have hstep : ∀ (acc : SyncResult × List Op) (silence : Silence),
      silence.ticketRef = "" → syncStep env cfg now acc silence = acc := by
    intro acc silence h
    unfold syncStep
    rw [if_pos ((beq_iff_eq).mpr h)]
  refine ⟨hstep, ?_⟩
  intro silences hl hall hca hp
  have hfold : silences.foldl (syncStep env cfg now) (SyncResult.empty, []) =
      (SyncResult.empty, []) :=
    foldl_fixed _ _ _ fun b s hs => hstep b s (hall s hs)
  unfold Sync syncBody
  rw [hl]
  simp [hfold, hca, hp]

/-- Witness for C3: a run over one uncoupled silence does nothing. -/
theorem C3_witness :
    Sync { okEnv with
            listSilences := Except.ok [silNoRef],
            pushRes := Except.ok () }
        { cfgW with checkAlerts := false } 0 =
      (SyncResult.empty, [], none) :=
  (C3_uncoupled_untouched _ _ _).2 [silNoRef] rfl (by decide) rfl rfl

/-! ## C5 -/

/-- C5: `IsResolved` holds exactly on the resolved status, `IsClosed`
exactly on closed or resolved, `IsOpen` exactly on open or in-progress; a
reopened ticket satisfies none of the three, and `processSilence` takes no
action for it beyond the ticket fetch. -/
theorem C5_classification (t : Ticket) :
    (IsResolved t = true ↔ t.status = StatusResolved) ∧
    (IsClosed t = true ↔ (t.status = StatusClosed ∨ t.status = StatusResolved)) ∧
    (IsOpen t = true ↔ (t.status = StatusOpen ∨ t.status = StatusInProgress)) ∧
    (t.status = StatusReopened →
      IsResolved t = false ∧ IsClosed t = false ∧ IsOpen t = false ∧
      ∀ (env : Env) (cfg : SyncConfig) (now : Int) (silence : Silence) (result : SyncResult),
        env.getTicket silence.ticketRef = Except.ok t →
        processSilence env cfg now silence result =
          (result, [Op.getTicket silence.ticketRef], none)) := by
  refine ⟨?_, ?_, ?_, ?_⟩
  · simp [IsResolved]
  · simp [IsClosed]
  · simp [IsOpen]
  · intro h
    have h1 : IsResolved t = false := by unfold IsResolved; rw [h]; decide
    have h2 : IsClosed t = false := by unfold IsClosed; rw [h]; decide
    have h3 : IsOpen t = false := by unfold IsOpen; rw [h]; decide
    refine ⟨h1, h2, h3, ?_⟩
    intro env cfg now silence result hT
    unfold processSilence
    rw [hT]
    simp [h1, h3]

/-- Witness for C5 at a concrete reopened ticket. -/
theorem C5_witness :
    IsOpen { key := ("T9"), status := StatusReopened } = false :=
  ((C5_classification _).2.2.2 rfl).2.2.1

/-! ## C6 -/

/-- C6: when enumerating active silences fails, `Sync` returns
immediately with the fatal error, all counters zero, and an empty call
trace (no per-silence processing and no refired-alert checking). -/
theorem C6_list_failure_fatal (env : Env) (cfg : SyncConfig) (now : Int) (e : String)
    (h : env.listSilences = Except.error e) :
    Sync env cfg now = (SyncResult.empty, [], some ("failed to list silences: " ++ e)) ∧
    (Sync env cfg now).fst.silencesExtended = 0 ∧
    (Sync env cfg now).fst.silencesDeleted = 0 ∧
    (Sync env cfg now).fst.silencesCreated = 0 ∧
    (Sync env cfg now).fst.ticketsReopened = 0 ∧
    (Sync env cfg now).snd.fst = [] := by
  have hS : Sync env cfg now =
      (SyncResult.empty, [], some ("failed to list silences: " ++ e)) := by
    unfold Sync
    rw [h]
  refine ⟨hS, ?_, ?_, ?_, ?_, ?_⟩ <;> simp [hS, SyncResult.empty]

/-- Witness for C6 at a concrete failing environment. -/
theorem C6_witness :
    Sync { okEnv with listSilences := Except.error ("boom") } cfgW 0 =
      (SyncResult.empty, [], some ("failed to list silences: " ++ "boom")) :=
  (C6_list_failure_fatal _ _ _ _ rfl).1

/-! ## C7 -/

/-- C7: a failure while processing one silence leaves the counters
untouched, is wrapped with that silence's id and appended to the error
list by the loop step, and `Sync` itself returns no top-level error once
the silence enumeration succeeded (the fold structure continues with the
remaining silences). -/
theorem C7_per_item_recoverable (env : Env) (cfg : SyncConfig) (now : Int) :
    (∀ silences, env.listSilences = Except.ok silences →
      (Sync env cfg now).snd.snd = none) ∧
    (∀ (silence : Silence) (result r : SyncResult) (ops : List Op) (e : String),
      processSilence env cfg now silence result = (r, ops, some e) →
      r = result) ∧
    (∀ (silence : Silence) (result r : SyncResult) (ops : List Op) (e : String)
        (tr : List Op),
      silence.ticketRef ≠ "" →
      processSilence env cfg now silence result = (r, ops, some e) →
      syncStep env cfg now (result, tr) silence =
        ({ r with errors := r.errors ++ ["silence " ++ silence.id ++ ": " ++ e] },
         tr ++ ops)) := by
  have hframe : ∀ (silence : Silence) (result r : SyncResult) (ops : List Op) (e : String),
      processSilence env cfg now silence result = (r, ops, some e) → r = result := by
    intro silence result r ops e h
    unfold processSilence at h
    repeat' split at h
    all_goals
      first
        | (simp only [Prod.mk.injEq, Option.some.injEq] at h; exact h.1.symm)
        | simp at h
  refine ⟨?_, hframe, ?_⟩
  · intro silences hl
    unfold Sync
    rw [hl]
  · intro silence result r ops e tr hne h
    have hb : ¬((silence.ticketRef == "") = true) := by
      simp only [beq_iff_eq]
      exact hne
    unfold syncStep
    rw [if_neg hb]
    show (match processSilence env cfg now silence result with
          | (r, ops, some e) =>
              ({ r with errors := r.errors ++ ["silence " ++ silence.id ++ ": " ++ e] },
               tr ++ ops)
          | (r, ops, none) => (r, tr ++ ops)) = _
    rw [h]

/-- Witness for C7: a concrete extend failure is wrapped with the silence
id and appended, with no counter change. -/
theorem C7_witness :
    syncStep { okEnv with
                getTicket := fun _ => Except.ok tktOpenW,
                extendRes := fun _ _ => Except.error ("net down") }
        cfgW 100 (SyncResult.empty, []) silW =
      ({ SyncResult.empty with
          errors := SyncResult.empty.errors ++
            ["silence " ++ silW.id ++ ": " ++ ("failed to extend expired silence: " ++ "net down")] },
       ([] : List Op) ++
         [Op.getTicket silW.ticketRef,
          Op.extendSilence silW.id ((100 : Int) + cfgW.extensionDuration)]) :=
  (C7_per_item_recoverable _ cfgW 100).2.2 silW SyncResult.empty SyncResult.empty
    [Op.getTicket silW.ticketRef,
     Op.extendSilence silW.id ((100 : Int) + cfgW.extensionDuration)]
    ("failed to extend expired silence: " ++ "net down") []
    (by decide) (by decide)

/-! ## C8 -/

/-- C8: when the primary mutation (delete, extend of an about-to-expire
silence, or extend of an expired silence) succeeds but the subsequent
comment-append fails, the failure is not added to the error list and the
corresponding counter is still incremented by one — `processSilence`
never consults the comment response. -/
theorem C8_comment_failure_ignored (env : Env) (cfg : SyncConfig) (now : Int)
    (silence : Silence) (result : SyncResult) (tkt : Ticket) (e : String)
    (hT : env.getTicket silence.ticketRef = Except.ok tkt) :
    (IsResolved tkt = true →
      env.deleteRes silence.id = Except.ok () →
      env.commentRes tkt.key (deletedMsg silence.id) = Except.error e →
      processSilence env cfg now silence result =
        ({ result with silencesDeleted := result.silencesDeleted + 1 },
         [Op.getTicket silence.ticketRef, Op.deleteSilence silence.id,
          Op.addComment tkt.key (deletedMsg silence.id)], none)) ∧
    (IsOpen tkt = true →
      silence.endsAt - now < cfg.expiryThreshold → 0 < silence.endsAt - now →
      env.extendRes silence.id (now + cfg.extensionDuration) = Except.ok () →
      env.commentRes tkt.key (extendedMsg silence.id (now + cfg.extensionDuration)) =
        Except.error e →
      processSilence env cfg now silence result =
        ({ result with silencesExtended := result.silencesExtended + 1 },
         [Op.getTicket silence.ticketRef,
          Op.extendSilence silence.id (now + cfg.extensionDuration),
          Op.addComment tkt.key (extendedMsg silence.id (now + cfg.extensionDuration))],
         none)) ∧
    (IsOpen tkt = true →
      silence.endsAt - now ≤ 0 →
      env.extendRes silence.id (now + cfg.extensionDuration) = Except.ok () →
      env.commentRes tkt.key (expiredExtendedMsg silence.id (now + cfg.extensionDuration)) =
        Except.error e →
      processSilence env cfg now silence result =
        ({ result with silencesExtended := result.silencesExtended + 1 },
         [Op.getTicket silence.ticketRef,
          Op.extendSilence silence.id (now + cfg.extensionDuration),
          Op.addComment tkt.key (expiredExtendedMsg silence.id (now + cfg.extensionDuration))],
         none)) := by
  refine ⟨?_, ?_, ?_⟩
  · intro hRes hDel _
    unfold processSilence
    rw [hT]
    simp [hRes, hDel]
  · intro hOpen hlt hpos hExt _
    have hnr : IsResolved tkt = false := isOpen_not_resolved tkt hOpen
    unfold processSilence
    rw [hT]
    simp only [hnr, Bool.false_eq_true, if_false, hOpen, if_true]
    rw [if_pos ⟨hlt, hpos⟩, hExt]
  · intro hOpen hexp hExt _
    have hnr : IsResolved tkt = false := isOpen_not_resolved tkt hOpen
    have hc1 : ¬(silence.endsAt - now < cfg.expiryThreshold ∧ 0 < silence.endsAt - now) := by
      intro hc; omega
    unfold processSilence
    rw [hT]
    simp only [hnr, Bool.false_eq_true, if_false, hOpen, if_true]
    rw [if_neg hc1, if_pos hexp, hExt]

/-- Witness for C8: an about-to-expire extend succeeds, the comment call
fails, the counter is still bumped and no error is recorded. -/
theorem C8_witness :
    processSilence { okEnv with
                      getTicket := fun _ => Except.ok tktOpenW,
                      commentRes := fun _ _ => Except.error ("jira 500") }
        cfgW 0 silW SyncResult.empty =
      ({ SyncResult.empty with silencesExtended := SyncResult.empty.silencesExtended + 1 },
       [Op.getTicket silW.ticketRef,
        Op.extendSilence silW.id ((0 : Int) + cfgW.extensionDuration),
        Op.addComment tktOpenW.key (extendedMsg silW.id ((0 : Int) + cfgW.extensionDuration))],
       none) :=
  (C8_comment_failure_ignored _ cfgW 0 silW SyncResult.empty tktOpenW ("jira 500")
    rfl).2.1 (by decide) (by decide) (by decide) rfl rfl

/-! ## C9 -/

/-- The matcher loop accumulates exactly the filterMap of the label
list. -/
theorem matchersLoop_eq (alert : Alert) :
    ∀ (ls : List String) (acc : List Matcher),
      matchersLoop alert ls acc =
        acc ++ ls.filterMap (fun label =>
          (lookupLabel alert.labels label).map fun value =>
            ({ name := label, value := value, isRegex := false, isEqual := true } : Matcher)) := by
  intro ls
  induction ls with
  | nil => intro acc; simp [matchersLoop]
  | cons a t ih =>
    intro acc
    cases hv : lookupLabel alert.labels a with
    | none => simp [matchersLoop, hv, ih, List.filterMap_cons]
    | some v => simp [matchersLoop, hv, ih, List.filterMap_cons]

/-- The matcher list the engine builds is exactly the one the spec words
describe: one equality, non-regex matcher for each allow-listed label
present on the alert, absent labels omitted. -/
theorem createMatchers_eq_spec (alert : Alert) :
    createMatchersFromAlert alert = specMatchersFromAlert alert := by
  unfold createMatchersFromAlert specMatchersFromAlert
  simpa using matchersLoop_eq alert importantLabels []

/-- C9: for a firing alert carrying a ticket label whose ticket
classifies as closed: with no silence label, a failed silence lookup, or a
non-future silence end time, `processAlert` issues exactly one reopen and
exactly one create, the created silence spanning `now` to
`now + defaultSilenceDuration` with the allow-list matchers; with an
existing silence whose end time is in the future, no reopen and no create
occur. -/
theorem C9_refired_alert (env : Env) (cfg : SyncConfig) (now : Int)
    (result : SyncResult) (tr : List Op) (alert : Alert)
    (tref : String) (tkt : Ticket) (newID : String)
    (hRef : lookupLabel alert.labels ("ticket") = some tref)
    (hT : env.getTicket tref = Except.ok tkt)
    (hC : IsClosed tkt = true)
    (hReopen : env.reopenRes tkt.key (reopenMsg alert) = Except.ok ())
    (hCreate : env.createRes (refiredSilence cfg now alert tkt) = Except.ok newID) :
    (lookupLabel alert.labels ("silence_id") = none →
      processAlert env cfg now (result, tr) alert =
        ({ result with ticketsReopened := result.ticketsReopened + 1,
                       silencesCreated := result.silencesCreated + 1 },
         tr ++ [Op.getTicket tref, Op.reopenTicket tkt.key (reopenMsg alert),
                Op.createSilence (refiredSilence cfg now alert tkt),
                Op.addComment tkt.key ("New silence created: " ++ newID)])) ∧
    (∀ sid e, lookupLabel alert.labels ("silence_id") = some sid →
      env.getSilence sid = Except.error e →
      processAlert env cfg now (result, tr) alert =
        ({ result with ticketsReopened := result.ticketsReopened + 1,
                       silencesCreated := result.silencesCreated + 1 },
         tr ++ [Op.getTicket tref, Op.getSilence sid,
                Op.reopenTicket tkt.key (reopenMsg alert),
                Op.createSilence (refiredSilence cfg now alert tkt),
                Op.addComment tkt.key ("New silence created: " ++ newID)])) ∧
    (∀ sid sl, lookupLabel alert.labels ("silence_id") = some sid →
      env.getSilence sid = Except.ok sl → sl.endsAt ≤ now →
      processAlert env cfg now (result, tr) alert =
        ({ result with ticketsReopened := result.ticketsReopened + 1,
                       silencesCreated := result.silencesCreated + 1 },
         tr ++ [Op.getTicket tref, Op.getSilence sid,
                Op.reopenTicket tkt.key (reopenMsg alert),
                Op.createSilence (refiredSilence cfg now alert tkt),
                Op.addComment tkt.key ("New silence created: " ++ newID)])) ∧
    (∀ sid sl, lookupLabel alert.labels ("silence_id") = some sid →
      env.getSilence sid = Except.ok sl → now < sl.endsAt →
      processAlert env cfg now (result, tr) alert =
        (result, tr ++ [Op.getTicket tref, Op.getSilence sid])) ∧
    (refiredSilence cfg now alert tkt).matchers = specMatchersFromAlert alert ∧
    (refiredSilence cfg now alert tkt).startsAt = now ∧
    (refiredSilence cfg now alert tkt).endsAt = now + cfg.defaultSilenceDuration := by
  refine ⟨?_, ?_, ?_, ?_, ?_, rfl, rfl⟩
  · intro hNo
    unfold processAlert
    simp [hRef, hT, hC, hNo, hReopen, hCreate, List.append_assoc]
  · intro sid e hSid hSil
    unfold processAlert
    simp [hRef, hT, hC, hSid, hSil, hReopen, hCreate, List.append_assoc]
  · intro sid sl hSid hSil hPast
    have hdec : decide (now < sl.endsAt) = false := by
      simp only [decide_eq_false_iff_not]
      omega
    unfold processAlert
    simp [hRef, hT, hC, hSid, hSil, hdec, hReopen, hCreate, List.append_assoc]
  · intro sid sl hSid hSil hFut
    have hdec : decide (now < sl.endsAt) = true := by
      simpa using hFut
    unfold processAlert
    simp [hRef, hT, hC, hSid, hSil, hdec]
  · exact (createMatchers_eq_spec alert).symm ▸ rfl

/-- A concrete refired alert fixture for the C9 witness. -/
def alertW : Alert :=
  { labels := [(("alertname"), ("HighCPU")), (("ticket"), ("T1")), (("severity"), ("critical"))] }

/-- Witness for C9: a concrete refired alert with no silence label leads
to exactly one reopen and one create. -/
theorem C9_witness :
    processAlert { okEnv with getTicket := fun _ => Except.ok tktClosedW }
        cfgW 5 (SyncResult.empty, []) alertW =
      ({ SyncResult.empty with
          ticketsReopened := SyncResult.empty.ticketsReopened + 1,
          silencesCreated := SyncResult.empty.silencesCreated + 1 },
       ([] : List Op) ++
         [Op.getTicket ("T1"), Op.reopenTicket tktClosedW.key (reopenMsg alertW),
          Op.createSilence (refiredSilence cfgW 5 alertW tktClosedW),
          Op.addComment tktClosedW.key ("New silence created: " ++ "s-new")]) :=
  (C9_refired_alert _ cfgW 5 SyncResult.empty [] alertW ("T1") tktClosedW ("s-new")
    (by decide) rfl (by decide) rfl rfl).1 (by decide)

/-! ## C10 -/

/-- A sequence occurring at the front of a list occurs in the list. -/
theorem containsSeq_of_atFront (n l : List Char) (h : atFront n l = true) :
    containsSeq n l = true := by
  cases l with
  | nil => exact h
  | cons d ds =>
    unfold containsSeq
    rw [h]
    rfl

/-- If `a ++ b` occurs at the front of a list, `b` occurs in it. -/
theorem containsSeq_of_atFront_append (a b : List Char) :
    ∀ l, atFront (a ++ b) l = true → containsSeq b l = true := by
  induction a with
  | nil => intro l h; exact containsSeq_of_atFront b l h
  | cons c cs ih =>
    intro l h
    cases l with
    | nil => simp [atFront] at h
    | cons d ds =>
      have h2 : atFront (cs ++ b) ds = true := by
        simp only [List.cons_append, atFront, Bool.and_eq_true] at h
        exact h.2
      have h3 := ih ds h2
      unfold containsSeq
      rw [h3, Bool.or_true]

/-- Containment of a sequence implies containment of any suffix of that
sequence. -/
theorem containsSeq_mono (a b : List Char) :
    ∀ l, containsSeq (a ++ b) l = true → containsSeq b l = true := by
  intro l
  induction l with
  | nil => intro h; exact containsSeq_of_atFront_append a b [] h
  | cons d ds ih =>
    intro h
    unfold containsSeq at h
    rcases (Bool.or_eq_true _ _).mp h with hf | hc
    · exact containsSeq_of_atFront_append a b (d :: ds) hf
    · have h3 := ih hc
      unfold containsSeq
      rw [h3, Bool.or_true]

/-- Any character list containing the sequence `reopen` contains the
sequence `open`. -/
theorem contains_open_of_reopen (l : List Char)
    (h : containsSeq (String.data ("reopen")) l = true) :
    containsSeq (String.data ("open")) l = true := by
  have hsplit : String.data ("reopen") = ['r', 'e'] ++ String.data ("open") := by decide
  rw [hsplit] at h
  exact containsSeq_mono _ _ l h

/-- C10: the Jira status mapper sends any lowercase name containing
`open` or `to do` to the open status (first case), sends unrecognized
names to open, sends every name containing `reopen` to open (because
`reopen` contains `open`), and therefore never returns the reopened
status — the reopened edge case is unreachable through this adapter. -/
theorem C10_map_jira_status (status : String) :
    (containsSeq (String.data ("open")) (lowerChars status) = true →
      mapJiraStatus status = StatusOpen) ∧
    (containsSeq (String.data ("to do")) (lowerChars status) = true →
      mapJiraStatus status = StatusOpen) ∧
    (containsSeq (String.data ("reopen")) (lowerChars status) = true →
      mapJiraStatus status = StatusOpen) ∧
    (containsSeq (String.data ("open")) (lowerChars status) = false →
     containsSeq (String.data ("to do")) (lowerChars status) = false →
     containsSeq (String.data ("in progress")) (lowerChars status) = false →
     containsSeq (String.data ("in review")) (lowerChars status) = false →
     containsSeq (String.data ("resolved")) (lowerChars status) = false →
     containsSeq (String.data ("done")) (lowerChars status) = false →
     containsSeq (String.data ("closed")) (lowerChars status) = false →
     containsSeq (String.data ("reopen")) (lowerChars status) = false →
      mapJiraStatus status = StatusOpen) ∧
    mapJiraStatus status ≠ StatusReopened := by
  have hs1 : containsSeq (String.data ("open")) (lowerChars status) = true →
      mapJiraStatus status = StatusOpen := by
    intro h
    unfold mapJiraStatus
    rw [h]
    rfl
  have hs2 : containsSeq (String.data ("to do")) (lowerChars status) = true →
      mapJiraStatus status = StatusOpen := by
    intro h
    unfold mapJiraStatus
    rw [h, Bool.or_true]
    rfl
  refine ⟨hs1, hs2, fun h => hs1 (contains_open_of_reopen _ h), ?_, ?_⟩
  · intro h1 h2 h3 h4 h5 h6 h7 h8
    unfold mapJiraStatus
    rw [h1, h2, h3, h4, h5, h6, h7, h8]
    rfl
  · unfold mapJiraStatus
    split
    · decide
    · split
      · decide
      · split
        · decide
        · split
          · decide
          · split
            · rename_i hn1 hn2 hn3 hn4 hre
              exact absurd
                ((Bool.or_eq_true _ _).mpr (Or.inl (contains_open_of_reopen _ hre))) hn1
            · decide

/-- Witness for C10: the Jira status name Reopened maps to the open
status, exactly as the adapter's unit test expects. -/
theorem C10_witness :
    mapJiraStatus ("Reopened") = StatusOpen :=
  (C10_map_jira_status ("Reopened")).2.2.1 (by decide)

/-! ## C4 -/

/-- C4 counterexample: a reference containing a newline but not the
marker sequence breaks the round-trip law as the claim states it —
extraction stops at the first newline. -/
theorem C4_counterexample :
    (['A', '\n', 'B'] : List Char) ≠ [] ∧
    containsSeq (promMarker ['p']) ['A', '\n', 'B'] = false ∧
    containsSeq (jiraMarker ['p']) ['A', '\n', 'B'] = false ∧
    extractTicketRef ['p'] (embedTicketRef ['p'] ['A', '\n', 'B'] []) ≠ ['A', '\n', 'B'] := by
  decide

/-- C4 amended: the round-trip law holds for every text, prefix, and
non-empty reference that does not contain the marker sequence and
contains no newline character; and extraction returns the empty string
for every text that does not begin with the exact marker at position
zero, including text shorter than the marker. -/
theorem C4_roundtrip (pfx text ref : List Char)
    (h1 : ref ≠ [])
    (h2 : containsSeq (promMarker pfx) ref = false)
    (h3 : containsSeq (jiraMarker pfx) ref = false)
    (h4 : '\n' ∉ ref) :
    extractTicketRef pfx (embedTicketRef pfx ref text) = ref ∧
    extractSilenceRef pfx (embedSilenceRef pfx ref text) = ref ∧
    (∀ t : List Char, t.take (promMarker pfx).length ≠ promMarker pfx →
      extractTicketRef pfx t = []) ∧
    (∀ t : List Char, t.take (jiraMarker pfx).length ≠ jiraMarker pfx →
      extractSilenceRef pfx t = []) := by
  refine ⟨?_, ?_, ?_, ?_⟩
  · unfold embedTicketRef extractTicketRef
    rw [if_neg h1]
    exact extractRefAux_round _ _ _ h4
  · unfold embedSilenceRef extractSilenceRef
    rw [if_neg h1]
    exact extractRefAux_round _ _ _ h4
  · intro t ht
    exact extractRefAux_no_marker _ _ ht
  · intro t ht
    exact extractRefAux_no_marker _ _ ht

/-- Witness for C4 at concrete prefix, reference, and text. -/
theorem C4_witness :
    extractTicketRef ['s', 'm'] (embedTicketRef ['s', 'm'] ['T', '1'] ['h', 'i']) = ['T', '1'] :=
  (C4_roundtrip ['s', 'm'] ['h', 'i'] ['T', '1']
    (by decide) (by decide) (by decide) (by decide)).1

end SilMgr
